import Mathlib

/-!
Verification of the Tokyo-Guide RAG backend core.

Shallow embedding of the retrieval-augmented generation pipeline:
  * app/services/rag.py        (answer_question — the orchestrator)
  * app/services/groq_client.py (generate_response, generate_suggested_questions)
  * app/services/database.py   (vector_search, get_session, create_session,
                                update_session_messages)
  * app/services/embeddings.py (encode_text, _call_hf_api)

External collaborators (Supabase store, Groq completion provider, HF inference
API, the local sentence-transformers model) are modelled as oracles supplied in
an environment record; the embedded functions reproduce exactly what the Python
code does with the oracle's replies. Python strings are Lean Strings (sequences
of code points, matching Python slicing/length semantics); Python floats are
modelled as rationals.
-/

namespace TokyoGuide

/-- A row returned by the match_documents RPC, restricted to the keys that
answer_question reads (result.get of id, title, title_hebrew, content_hebrew,
category, similarity). -/
structure Passage where
  id : String
  title : String
  title_hebrew : String
  content_hebrew : String
  category : String
  similarity : ℚ
deriving DecidableEq, Repr

/-- app/models.py SourceReference. -/
structure SourceReference where
  id : String
  title : String
  title_hebrew : String
  category : String
  similarity : ℚ
deriving DecidableEq, Repr

/-- One {role, content} chat message. -/
structure Message where
  role : String
  content : String
deriving DecidableEq, Repr

/-- app/models.py ChatResponse. -/
structure ChatResponse where
  answer : String
  sources : List SourceReference
  session_id : String
  suggested_questions : List String
deriving DecidableEq, Repr

/-- A chat_sessions row, restricted to what answer_question reads
(session.get of messages, default empty). -/
structure ChatSession where
  messages : List Message
deriving DecidableEq, Repr

/-! ### Python-string primitives -/

/-- Python slicing s[:n]: the first n code points of s. -/
def pyTake (s : String) (n : Nat) : String := ⟨s.data.take n⟩

/-- Python sep.join(parts). -/
def joinSep (sep : String) : List String → String
  | [] => ""
  | [x] => x
  | x :: y :: xs => x ++ sep ++ joinSep sep (y :: xs)

/-- Python list slicing l[-n:]: the last n elements of l. -/
def lastN (n : Nat) (l : List α) : List α := l.drop (l.length - n)

/-! ### Rounding (Python round(x, 3) with ties to even) -/

/-- The floor of a rational, computed so that the kernel can evaluate it. -/
def pyFloor (q : ℚ) : ℤ := q.num / q.den

/-- pyFloor agrees with the mathematical floor. -/
theorem pyFloor_eq_floor (q : ℚ) : pyFloor q = ⌊q⌋ := Rat.floor_def.symm

/-- Round a rational to the nearest integer, ties to the even integer
(Python's round builtin), written with integer arithmetic on the normalized
numerator and denominator so that the kernel can evaluate it: the fractional
part of q is (q.num - pyFloor q * q.den) / q.den, and comparing it with 1/2 is
comparing twice its numerator with the denominator. -/
def roundHalfEven (q : ℚ) : ℤ :=
  if 2 * (q.num - pyFloor q * q.den) < (q.den : ℤ) then pyFloor q
  else if (q.den : ℤ) < 2 * (q.num - pyFloor q * q.den) then pyFloor q + 1
  else if pyFloor q % 2 = 0 then pyFloor q else pyFloor q + 1

/-- Python round(x, 3): the nearest (ties to even) multiple of 1/1000, with
the scaling by 1000 performed on the numerator. -/
def round3 (q : ℚ) : ℚ := mkRat (roundHalfEven (mkRat (q.num * 1000) q.den)) 1000

/-! ### Context assembly (rag.py lines 51–72) -/

/-- rag.py: max_content_per_source = 2000. -/
def maxContentPerSource : Nat := 2000

/-- rag.py lines 58–59: content_heb truncated to 2000 code points with an
ellipsis marker exactly when it was longer. -/
def truncateContent (s : String) : String :=
  if s.length > maxContentPerSource then pyTake s maxContentPerSource ++ "..." else s

/-- rag.py line 60: one context block, markdown header with the Hebrew title
followed by the (possibly truncated) Hebrew body. -/
def contextPart (p : Passage) : String :=
  "## " ++ p.title_hebrew ++ "\n" ++ truncateContent p.content_hebrew

/-- rag.py lines 62–69: the SourceReference built from one search row;
similarity is rounded to 3 decimal places. -/
def mkSource (p : Passage) : SourceReference :=
  ⟨p.id, p.title, p.title_hebrew, p.category, round3 p.similarity⟩

/-- rag.py line 72: the context block, the blocks joined by the visible
separator (join of the empty list is the empty string, as in Python). -/
def buildContext (results : List Passage) : String :=
  joinSep "\n\n---\n\n" (results.map contextPart)

/-! ### Answer generator (groq_client.py) -/

/-- Outcome of one chat.completions.create call: either a raised exception, or
a response whose choices[0].message.content is an optional string. -/
inductive CompletionResult where
  | exn
  | ok (content : Option String)
deriving DecidableEq, Repr

/-- groq_client.py line 89: fallback when the provider succeeds but the message
content is None or empty. -/
def noAnswerFallback : String := "מצטער, לא הצלחתי ליצור תשובה. נסה שוב."

/-- groq_client.py line 92: the fixed localized fallback returned when the
provider call raises. -/
def errorFallback : String := "מצטער, אירעה שגיאה בעיבוד השאלה. נסה שוב בעוד רגע."

/-- groq_client.py line 67: substituted for an empty context in the system
prompt. -/
def noInfoMarker : String := "אין מידע ספציפי זמין."

/-- SYSTEM_PROMPT_TEMPLATE, the part before the context placeholder. -/
def promptHead : String :=
  "אתה מדריך טיולים מומחה לטוקיו, יפן. אתה עונה על שאלות בעברית בצורה ידידותית, מדויקת ומפורטת.\n\nהשתמש במידע הבא כדי לענות על שאלות המשתמש:\n\n"

/-- SYSTEM_PROMPT_TEMPLATE, the part after the context placeholder. -/
def promptTail : String :=
  "\n\nהנחיות:\n1. ענה תמיד בעברית, אלא אם המשתמש שואל באנגלית.\n2. ציין שמות מקומות גם באנגלית (באותיות לטיניות) לצד העברית, לנוחות ניווט.\n3. תן תשובות ברורות, מדויקות ומועילות על בסיס המידע שקיבלת.\n4. אם המידע לא מופיע בהקשר שקיבלת, אמור זאת בכנות ונסה לתת עצה כללית.\n5. כשממליץ על מסעדות או מקומות, ציין גם את האזור/שכונה.\n6. היה חם ומזמין, כמו חבר שמכיר את טוקיו היטב.\n7. אם המשתמש שואל על מחירים, ציין ביין יפני (¥) וגם הערכה בשקלים.\n"

/-- groq_client.py line 67: SYSTEM_PROMPT_TEMPLATE.format with the empty
context replaced by the no-information marker (Python truthiness of str). -/
def systemMessageContent (context : String) : String :=
  promptHead ++ (if context = "" then noInfoMarker else context) ++ promptTail

/-- groq_client.py lines 69–75: the message list sent to the provider — system
prompt, then (when the history is non-empty) the last 6 history messages, then
the new user turn. -/
def buildMessages (context question : String) (chat_history : List Message) : List Message :=
  ⟨"system", systemMessageContent context⟩ ::
    ((if chat_history.isEmpty then [] else lastN 6 chat_history) ++ [⟨"user", question⟩])

/-- groq_client.py generate_response: call the provider with the built
messages; on an exception return the localized error fallback, on a None or
empty content return the no-answer fallback, else return the content. -/
def generate_response (provider : List Message → CompletionResult)
    (context question : String) (chat_history : List Message) : String :=
  match provider (buildMessages context question chat_history) with
  | .exn => errorFallback
  | .ok none => noAnswerFallback
  | .ok (some a) => if a = "" then noAnswerFallback else a

/-- groq_client.py lines 129–133: the fixed default suggestions returned on
provider failure. -/
def defaultSuggestions : List String :=
  ["מה כדאי לאכול בטוקיו?", "איך להתניידד בתחבורה ציבורית?", "אילו שכונות מומלצות לביקור?"]

/-- groq_client.py generate_suggested_questions: on provider failure the fixed
default list; otherwise split the raw content into stripped non-empty lines
and keep at most 3. -/
def generate_suggested_questions (provider : String → String → CompletionResult)
    (question answer : String) : List String :=
  match provider question answer with
  | .exn => defaultSuggestions
  | .ok content =>
      let raw := content.getD ""
      ((((raw.trim).splitOn "\n").map String.trim).filter (fun l => l ≠ "")).take 3

/-! ### Retrieval store (database.py vector_search) -/

/-- database.py vector_search: on any RPC exception return the empty list
(logged, not raised); on success return result.data or the empty list. -/
def vector_search (rpcOutcome : Except Unit (Option (List Passage))) : List Passage :=
  match rpcOutcome with
  | .error _ => []
  | .ok data => data.getD []

/-! ### Session store and the orchestrator (rag.py answer_question) -/

/-- The session-store oracle: get_session (None when not found) and the id
that create_session would return for this turn. -/
structure SessionStore where
  getSession : String → Option ChatSession
  freshId : String

/-- rag.py lines 74–85: session resolution. Python truthiness: a None or empty
session_id falls to the create branch. -/
def resolveSession (store : SessionStore) (session_id : Option String) :
    String × List Message :=
  match session_id with
  | some sid =>
      if sid = "" then (store.freshId, [])
      else
        match store.getSession sid with
        | some s => (sid, s.messages)
        | none => (store.freshId, [])
  | none => (store.freshId, [])

/-- The collaborators of one turn: question embedding, the match_documents RPC
(as a function of the query vector and the two settings), the session store,
the completion provider and the suggestion provider. -/
structure Env where
  embed : String → List ℚ
  search : List ℚ → ℚ → Nat → Except Unit (Option (List Passage))
  store : SessionStore
  completionProvider : List Message → CompletionResult
  suggestProvider : String → String → CompletionResult

/-- config.py: rag_match_threshold = 0.25. -/
def ragMatchThreshold : ℚ := 1 / 4

/-- config.py: rag_match_count = 8. -/
def ragMatchCount : Nat := 8

/-- What one turn produced: the ChatResponse and the update_session_messages
write (session id and message list). -/
structure TurnResult where
  response : ChatResponse
  persistedId : String
  persistedMessages : List Message
deriving DecidableEq, Repr

/-- rag.py answer_question: embed the question, search, build context and
sources, resolve the session, generate the answer and the suggestions, then
append the user and assistant turns, keep the last 10 messages, and persist. -/
def answer_question (env : Env) (question : String) (session_id : Option String) :
    TurnResult :=
  let question_embedding := env.embed question
  let search_results :=
    vector_search (env.search question_embedding ragMatchThreshold ragMatchCount)
  let context := buildContext search_results
  let sources := search_results.map mkSource
  let resolved := resolveSession env.store session_id
  let sid := resolved.1
  let chat_history := resolved.2
  let answer := generate_response env.completionProvider context question chat_history
  let suggested := generate_suggested_questions env.suggestProvider question answer
  let newHistory := lastN 10 (chat_history ++ [⟨"user", question⟩, ⟨"assistant", answer⟩])
  ⟨⟨answer, sources, sid, suggested⟩, sid, newHistory⟩

/-! ### Embedding provider (embeddings.py) -/

/-- Squared L2 norm of a vector; a unit-normalized vector has sumSq = 1. -/
def sumSq (v : List ℚ) : ℚ := (v.map (fun x => x * x)).sum

/-- Outcome of one HTTP attempt against the HF inference endpoint:
a timeout, some other exception (connection error or raise_for_status), a JSON
body that is an error dict, or a successful list of vectors. -/
inductive AttemptOutcome where
  | timeout
  | raised (msg : String)
  | errorPayload (msg : String)
  | success (result : List (List ℚ))
deriving DecidableEq, Repr

/-- What a run of _call_hf_api did: the returned value or the raised error,
the time.sleep delays performed between attempts (in seconds, in order), and
how many attempts were made. -/
structure HfRun where
  result : Except String (List (List ℚ))
  sleeps : List Nat
  attemptsUsed : Nat
deriving Repr

/-- embeddings.py _call_hf_api, the loop body: attempt is the current 0-based
attempt index, fuel is the number of attempts still allowed (retries - attempt,
positive on entry from call_hf_api).  A timeout or exception sleeps 3 seconds
before the next attempt and re-raises on the last one; an error payload sleeps
5 seconds and raises RuntimeError on the last one; fuel 0 corresponds to the
final unreachable raise after the loop. -/
def hfLoop (oracle : Nat → AttemptOutcome) (attempt : Nat) : Nat → HfRun
  | 0 => ⟨.error "HF API failed after all retries", [], 0⟩
  | Nat.succ n =>
    match oracle attempt with
    | .success r => ⟨.ok r, [], 1⟩
    | .errorPayload msg =>
        if n = 0 then ⟨.error ("HF API error: " ++ msg), [], 1⟩
        else
          let rest := hfLoop oracle (attempt + 1) n
          ⟨rest.result, 5 :: rest.sleeps, rest.attemptsUsed + 1⟩
    | .timeout =>
        if n = 0 then ⟨.error "httpx.TimeoutException", [], 1⟩
        else
          let rest := hfLoop oracle (attempt + 1) n
          ⟨rest.result, 3 :: rest.sleeps, rest.attemptsUsed + 1⟩
    | .raised msg =>
        if n = 0 then ⟨.error msg, [], 1⟩
        else
          let rest := hfLoop oracle (attempt + 1) n
          ⟨rest.result, 3 :: rest.sleeps, rest.attemptsUsed + 1⟩

/-- embeddings.py _call_hf_api(texts, retries): for attempt in range(retries). -/
def call_hf_api (oracle : Nat → AttemptOutcome) (retries : Nat) : HfRun :=
  hfLoop oracle 0 retries

/-- The embedding service state: _use_api (true when HF_API_TOKEN is set), the
HF API's successful response as a function of the input batch, and the loaded
local model (None before load_model in local mode).  The local model's encode
is called with normalize_embeddings=True; its output is whatever the external
library returns. -/
structure EmbedEnv where
  use_api : Bool
  apiResult : List String → List (List ℚ)
  model : Option (String → List ℚ)

/-- embeddings.py encode_text: in API mode return _call_hf_api([text])[0]
(an IndexError if the response is empty); in local mode raise if the model is
not loaded, else return the model's encoding unchanged. -/
def encode_text (env : EmbedEnv) (text : String) : Except String (List ℚ) :=
  if env.use_api then
    match (env.apiResult [text]).head? with
    | some v => .ok v
    | none => .error "IndexError"
  else
    match env.model with
    | none => .error "Embedding model not loaded. Call load_model() first."
    | some enc => .ok (enc text)

/-- The search results of one turn (the list answer_question iterates over). -/
def searchResults (env : Env) (question : String) : List Passage :=
  vector_search (env.search (env.embed question) ragMatchThreshold ragMatchCount)

/-! ### Concrete fixtures used to instantiate the theorems -/

/-- A session store holding no session. -/
def emptyStore : SessionStore := ⟨fun _ => none, "new-session-1"⟩

/-- A stored session with 8 messages (4 completed exchanges). -/
def sessionEight : ChatSession :=
  ⟨[⟨"user", "ש1"⟩, ⟨"assistant", "ת1"⟩, ⟨"user", "ש2"⟩, ⟨"assistant", "ת2"⟩,
    ⟨"user", "ש3"⟩, ⟨"assistant", "ת3"⟩, ⟨"user", "ש4"⟩, ⟨"assistant", "ת4"⟩]⟩

/-- A session store that knows the id abc and would mint fresh-9 otherwise. -/
def historyStore : SessionStore :=
  ⟨fun sid => if sid = "abc" then some sessionEight else none, "fresh-9"⟩

/-- Two retrieved passages with descending similarities 0.81 and 0.63. -/
def passages2 : List Passage :=
  [⟨"1", "Food", "אוכל", "מסעדות בטוקיו", "food", mkRat 81 100⟩,
   ⟨"2", "Metro", "רכבת", "תחבורה ציבורית", "transport", mkRat 63 100⟩]

/-- A turn environment whose retrieval RPC raises and whose completion and
suggestion providers raise on every call. -/
def envExn : Env :=
  ⟨fun _ => [], fun _ _ _ => .error (), emptyStore, fun _ => .exn, fun _ _ => .exn⟩

/-- A turn environment with a stored session, a successful two-passage search
and well-behaved providers. -/
def envHist : Env :=
  ⟨fun _ => [], fun _ _ _ => .ok (some passages2), historyStore,
   fun _ => .ok (some "תשובה"), fun _ _ => .ok (some "ש1\nש2\nש3\nש4")⟩

/-- A turn environment whose completion provider succeeds with empty content. -/
def envEmptyContent : Env :=
  ⟨fun _ => [], fun _ _ _ => .ok none, emptyStore, fun _ => .ok (some ""), fun _ _ => .exn⟩

/-- The all-ones-then-zeros unit vector of dimension 384. -/
def unitVec384 : List ℚ := 1 :: List.replicate 383 0

/-- An embedding service in remote-API mode whose endpoint returns one
384-dimensional unit vector. -/
def goodApiEnv : EmbedEnv := ⟨true, fun _ => [unitVec384], none⟩

/-- An embedding service in remote-API mode whose endpoint replies with a
2-dimensional, non-normalized vector. -/
def badApiEnv : EmbedEnv := ⟨true, fun _ => [[2, 0]], none⟩

/-- An HF endpoint that times out on every attempt. -/
def timeoutOracle : Nat → AttemptOutcome := fun _ => .timeout

/-! ### Helper lemmas: the HF retry loop -/

theorem hfLoop_attemptsUsed_le (oracle : Nat → AttemptOutcome) (attempt n : Nat) :
    (hfLoop oracle attempt n).attemptsUsed ≤ n := by
  induction n generalizing attempt with
  | zero => simp [hfLoop]
  | succ n ih =>
    unfold hfLoop
    cases oracle attempt with
    | success r => simp
    | errorPayload msg =>
      by_cases hn : n = 0
      · simp [hn]
      · have := ih (attempt + 1)
        simp [hn]
        omega
    | timeout =>
      by_cases hn : n = 0
      · simp [hn]
      · have := ih (attempt + 1)
        simp [hn]
        omega
    | raised msg =>
      by_cases hn : n = 0
      · simp [hn]
      · have := ih (attempt + 1)
        simp [hn]
        omega

theorem hfLoop_sleeps_mem (oracle : Nat → AttemptOutcome) (attempt n : Nat) :
    ∀ d ∈ (hfLoop oracle attempt n).sleeps, d = 3 ∨ d = 5 := by
  induction n generalizing attempt with
  | zero => simp [hfLoop]
  | succ n ih =>
    unfold hfLoop
    cases oracle attempt with
    | success r => simp
    | errorPayload msg =>
      by_cases hn : n = 0
      · simp [hn]
      · intro d hd
        simp [hn] at hd
        rcases hd with hd | hd
        · omega
        · exact ih (attempt + 1) d hd
    | timeout =>
      by_cases hn : n = 0
      · simp [hn]
      · intro d hd
        simp [hn] at hd
        rcases hd with hd | hd
        · omega
        · exact ih (attempt + 1) d hd
    | raised msg =>
      by_cases hn : n = 0
      · simp [hn]
      · intro d hd
        simp [hn] at hd
        rcases hd with hd | hd
        · omega
        · exact ih (attempt + 1) d hd

theorem hfLoop_error_of_no_success (oracle : Nat → AttemptOutcome) (attempt n : Nat)
    (h : ∀ k r, oracle k ≠ .success r) :
    ∃ msg, (hfLoop oracle attempt n).result = .error msg := by
  induction n generalizing attempt with
  | zero => exact ⟨_, rfl⟩
  | succ n ih =>
    unfold hfLoop
    cases hk : oracle attempt with
    | success r => exact absurd hk (h attempt r)
    | errorPayload msg =>
      by_cases hn : n = 0
      · exact ⟨"HF API error: " ++ msg, by simp [hn]⟩
      · obtain ⟨m, hm⟩ := ih (attempt + 1)
        exact ⟨m, by simp [hn, hm]⟩
    | timeout =>
      by_cases hn : n = 0
      · exact ⟨"httpx.TimeoutException", by simp [hn]⟩
      · obtain ⟨m, hm⟩ := ih (attempt + 1)
        exact ⟨m, by simp [hn, hm]⟩
    | raised msg =>
      by_cases hn : n = 0
      · exact ⟨msg, by simp [hn]⟩
      · obtain ⟨m, hm⟩ := ih (attempt + 1)
        exact ⟨m, by simp [hn, hm]⟩

/-! ### Helper lemmas: list and string primitives -/

theorem lastN_length (n : Nat) (l : List α) : (lastN n l).length = min n l.length := by
  simp only [lastN, List.length_drop]
  omega

theorem lastN_suffix (n : Nat) (l : List α) : lastN n l <:+ l :=
  List.drop_suffix _ _

theorem pyTake_length (s : String) (n : Nat) : (pyTake s n).length = min n s.length :=
  List.length_take n s.data

theorem joinSep_length_le (sep : String) (parts : List String) (B : Nat)
    (h : ∀ p ∈ parts, p.length ≤ B) :
    (joinSep sep parts).length ≤ parts.length * (B + sep.length) := by
  induction parts with
  | nil => simp [joinSep]
  | cons x xs ih =>
    cases xs with
    | nil =>
      have hx := h x (by simp)
      simpa [joinSep] using le_trans hx (by omega)
    | cons y ys =>
      have hx := h x (by simp)
      have hrest := ih (fun p hp => h p (by simp [hp]))
      have hexp : (joinSep sep (x :: y :: ys)).length
          = x.length + sep.length + (joinSep sep (y :: ys)).length := by
        simp [joinSep, String.length_append]
      rw [hexp]
      have hlen : (y :: ys).length * (B + sep.length) + (B + sep.length)
          = (x :: y :: ys).length * (B + sep.length) := by
        simp [List.length_cons]
        ring
      omega

theorem truncateContent_length_le (s : String) :
    (truncateContent s).length ≤ maxContentPerSource + 3 := by
  unfold truncateContent
  split
  · rw [String.length_append, pyTake_length]
    have : ("..." : String).length = 3 := by decide
    omega
  · omega

theorem truncateContent_of_le (s : String) (h : s.length ≤ maxContentPerSource) :
    truncateContent s = s := by
  unfold truncateContent
  split
  · omega
  · rfl

theorem truncateContent_of_gt (s : String) (h : s.length > maxContentPerSource) :
    truncateContent s = pyTake s maxContentPerSource ++ "..." := by
  unfold truncateContent
  split
  · rfl
  · omega

theorem contextPart_length_le (p : Passage) (T : Nat)
    (hT : p.title_hebrew.length ≤ T) :
    (contextPart p).length ≤ 4 + T + (maxContentPerSource + 3) := by
  unfold contextPart
  rw [String.length_append, String.length_append, String.length_append]
  have h1 : ("## " : String).length = 3 := by decide
  have h2 : ("\n" : String).length = 1 := by decide
  have h3 := truncateContent_length_le p.content_hebrew
  omega

/-! ### Helper lemmas: rounding -/

theorem roundHalfEven_eq_ite (q : ℚ) :
    roundHalfEven q =
      if q - ⌊q⌋ < 1 / 2 then ⌊q⌋
      else if 1 / 2 < q - ⌊q⌋ then ⌊q⌋ + 1
      else if Even ⌊q⌋ then ⌊q⌋ else ⌊q⌋ + 1 := by
  have hd : (0 : ℚ) < (q.den : ℚ) := by exact_mod_cast q.den_pos
  have hnd : (q : ℚ) * (q.den : ℚ) = (q.num : ℚ) :=
    ((div_eq_iff (ne_of_gt hd)).mp (Rat.num_div_den q)).symm
  have hcast : ∀ z : ℤ, q - (z : ℚ) = ((q.num - z * q.den : ℤ) : ℚ) / (q.den : ℚ) := by
    intro z
    rw [eq_div_iff (ne_of_gt hd)]
    push_cast
    linear_combination hnd
  have hA : (2 * (q.num - ⌊q⌋ * q.den) < (q.den : ℤ)) ↔ (q - (⌊q⌋ : ℚ) < 1 / 2) := by
    rw [hcast ⌊q⌋, div_lt_iff hd]
    constructor
    · intro h
      have h' : ((2 * (q.num - ⌊q⌋ * q.den) : ℤ) : ℚ) < ((q.den : ℤ) : ℚ) := by exact_mod_cast h
      push_cast at h' ⊢
      linarith
    · intro h
      push_cast at h
      have h' : ((2 * (q.num - ⌊q⌋ * q.den) : ℤ) : ℚ) < ((q.den : ℤ) : ℚ) := by
        push_cast
        linarith
      exact_mod_cast h'
  have hB : ((q.den : ℤ) < 2 * (q.num - ⌊q⌋ * q.den)) ↔ ((1 : ℚ) / 2 < q - (⌊q⌋ : ℚ)) := by
    rw [hcast ⌊q⌋, lt_div_iff hd]
    constructor
    · intro h
      have h' : ((q.den : ℤ) : ℚ) < ((2 * (q.num - ⌊q⌋ * q.den) : ℤ) : ℚ) := by exact_mod_cast h
      push_cast at h' ⊢
      linarith
    · intro h
      push_cast at h
      have h' : ((q.den : ℤ) : ℚ) < ((2 * (q.num - ⌊q⌋ * q.den) : ℤ) : ℚ) := by
        push_cast
        linarith
      exact_mod_cast h'
  have hC : (⌊q⌋ % 2 = 0) ↔ Even ⌊q⌋ := Int.even_iff.symm
  unfold roundHalfEven
  rw [pyFloor_eq_floor]
  simp only [hA, hB, hC]

theorem floor_le_roundHalfEven (q : ℚ) : ⌊q⌋ ≤ roundHalfEven q := by
  rw [roundHalfEven_eq_ite]
  split
  · exact le_refl _
  · split
    · omega
    · split
      · exact le_refl _
      · omega

theorem roundHalfEven_le_floor_add_one (q : ℚ) : roundHalfEven q ≤ ⌊q⌋ + 1 := by
  rw [roundHalfEven_eq_ite]
  split
  · omega
  · split
    · omega
    · split
      · omega
      · omega

theorem roundHalfEven_mono {x y : ℚ} (h : x ≤ y) : roundHalfEven x ≤ roundHalfEven y := by
  rcases lt_or_eq_of_le (Int.floor_mono h) with hf | hf
  · calc roundHalfEven x ≤ ⌊x⌋ + 1 := roundHalfEven_le_floor_add_one x
      _ ≤ ⌊y⌋ := by omega
      _ ≤ roundHalfEven y := floor_le_roundHalfEven y
  · rw [roundHalfEven_eq_ite, roundHalfEven_eq_ite, ← hf]
    have hxy : x - (⌊x⌋ : ℚ) ≤ y - (⌊x⌋ : ℚ) := by linarith
    by_cases h1x : x - (⌊x⌋ : ℚ) < 1 / 2
    · rw [if_pos h1x]
      split
      · omega
      · split
        · omega
        · split
          · omega
          · omega
    · rw [if_neg h1x]
      by_cases h2x : (1 : ℚ) / 2 < x - (⌊x⌋ : ℚ)
      · have h2y : (1 : ℚ) / 2 < y - (⌊x⌋ : ℚ) := lt_of_lt_of_le h2x hxy
        rw [if_pos h2x, if_neg (not_lt.mpr (by linarith)), if_pos h2y]
      · -- tie at x: the fractional part of x is exactly one half
        have hx2 : x - (⌊x⌋ : ℚ) = 1 / 2 := le_antisymm (le_of_not_lt h2x) (le_of_not_lt h1x)
        rw [if_neg h2x]
        have h1y : ¬ (y - (⌊x⌋ : ℚ) < 1 / 2) := not_lt.mpr (by linarith)
        rw [if_neg h1y]
        by_cases h2y : (1 : ℚ) / 2 < y - (⌊x⌋ : ℚ)
        · rw [if_pos h2y]
          split
          · omega
          · omega
        · rw [if_neg h2y]

theorem mkRat_thousand_eq (q : ℚ) : mkRat (q.num * 1000) q.den = q * 1000 := by
  rw [Rat.mkRat_eq_div]
  push_cast
  rw [mul_div_right_comm, Rat.num_div_den]

theorem round3_eq (q : ℚ) : round3 q = ((roundHalfEven (q * 1000) : ℤ) : ℚ) / 1000 := by
  unfold round3
  rw [mkRat_thousand_eq, Rat.mkRat_eq_div]
  norm_num

theorem round3_mono {x y : ℚ} (h : x ≤ y) : round3 x ≤ round3 y := by
  rw [round3_eq, round3_eq]
  have h1 : x * 1000 ≤ y * 1000 := by linarith
  have h2 := roundHalfEven_mono h1
  have h3 : ((roundHalfEven (x * 1000) : ℤ) : ℚ) ≤ ((roundHalfEven (y * 1000) : ℤ) : ℚ) := by
    exact_mod_cast h2
  have h1000 : (0 : ℚ) < 1000 := by norm_num
  exact (div_le_div_right h1000).mpr h3

/-! ### Helper lemmas: the answer generator and the orchestrator -/

theorem generate_response_ne_empty (provider : List Message → CompletionResult)
    (context question : String) (chat_history : List Message) :
    generate_response provider context question chat_history ≠ "" := by
  unfold generate_response
  cases provider (buildMessages context question chat_history) with
  | exn => decide
  | ok content =>
    cases content with
    | none => decide
    | some a =>
      by_cases ha : a = ""
      · simp [ha]
        decide
      · simp [ha]

theorem answer_question_answer_eq (env : Env) (question : String) (sid : Option String) :
    (answer_question env question sid).response.answer
      = generate_response env.completionProvider (buildContext (searchResults env question))
          question (resolveSession env.store sid).2 := rfl

theorem answer_question_sources_eq (env : Env) (question : String) (sid : Option String) :
    (answer_question env question sid).response.sources
      = (searchResults env question).map mkSource := rfl

theorem answer_question_session_id_eq (env : Env) (question : String) (sid : Option String) :
    (answer_question env question sid).response.session_id
      = (resolveSession env.store sid).1 := rfl

theorem answer_question_persisted_eq (env : Env) (question : String) (sid : Option String) :
    (answer_question env question sid).persistedMessages
      = lastN 10 ((resolveSession env.store sid).2 ++
          [⟨"user", question⟩, ⟨"assistant", (answer_question env question sid).response.answer⟩]) := rfl

theorem sumSq_replicate_zero (n : Nat) : sumSq (List.replicate n 0) = 0 := by
  induction n with
  | zero => rfl
  | succ n ih =>
    rw [List.replicate_succ]
    simp only [sumSq, List.map_cons, List.sum_cons] at ih ⊢
    rw [ih]
    ring

theorem sumSq_unitVec384 : sumSq unitVec384 = 1 := by
  have h := sumSq_replicate_zero 383
  simp only [unitVec384, sumSq, List.map_cons, List.sum_cons] at h ⊢
  rw [h]
  ring

theorem unitVec384_length : unitVec384.length = 384 := by
  unfold unitVec384
  rw [List.length_cons, List.length_replicate]

/-! ### The claims -/

/-- C1: for every context, question and history, if the completion provider
call raises an exception of any kind, generate_response returns the fixed
localized fallback string instead of propagating, and the orchestrator's turn
still completes (answer_question returns a TurnResult) with that fallback as
the answer — the fallback is an ordinary success value, not an exception, so
nothing is retried. -/
theorem c1_provider_failure_fallback (env : Env) (question : String) (sid : Option String)
    (h : ∀ msgs, env.completionProvider msgs = .exn) :
    (∀ context q hist, generate_response env.completionProvider context q hist = errorFallback)
    ∧ (answer_question env question sid).response.answer = errorFallback := by
  constructor
  · intro context q hist
    unfold generate_response
    rw [h]
  · rw [answer_question_answer_eq]
    unfold generate_response
    rw [h]

/-- Witness for C1 at a concrete environment whose provider always raises. -/
theorem c1_witness :
    (answer_question envExn "מה לאכול בטוקיו?" none).response.answer = errorFallback :=
  (c1_provider_failure_fallback envExn "מה לאכול בטוקיו?" none (fun _ => rfl)).2

/-- C2: session resolution has exactly three cases — a supplied identifier
found in the store is reused (same identifier in the response, stored history
loaded); a supplied identifier not found mints the store's fresh identifier
with empty history; no identifier mints the fresh identifier.  Supplying an
existing identifier twice yields the same identifier both times, and supplying
an unknown identifier yields a different identifier (the store-minted fresh id,
distinct from the stale one). -/
theorem c2_session_resolution (env : Env) (question sid : String) (hsid : sid ≠ "") :
    (∀ s, env.store.getSession sid = some s →
        (answer_question env question (some sid)).response.session_id = sid
        ∧ (resolveSession env.store (some sid)).2 = s.messages)
    ∧ (env.store.getSession sid = none →
        (answer_question env question (some sid)).response.session_id = env.store.freshId
        ∧ (resolveSession env.store (some sid)).2 = [])
    ∧ (answer_question env question none).response.session_id = env.store.freshId
    ∧ (env.store.getSession sid = none → env.store.freshId ≠ sid →
        (answer_question env question (some sid)).response.session_id ≠ sid) := by
  refine ⟨?_, ?_, ?_, ?_⟩
  · intro s hs
    rw [answer_question_session_id_eq]
    constructor <;> simp [resolveSession, hsid, hs]
  · intro hs
    rw [answer_question_session_id_eq]
    constructor <;> simp [resolveSession, hsid, hs]
  · rw [answer_question_session_id_eq]
    rfl
  · intro hs hne
    rw [answer_question_session_id_eq]
    simp [resolveSession, hsid, hs]
    exact hne

/-- Witness for C2: with a concrete store, a found id is reused (twice in a
row), and an unknown id is replaced by the distinct fresh id. -/
theorem c2_witness :
    (answer_question envHist "שאלה" (some "abc")).response.session_id = "abc"
    ∧ (answer_question envHist "שאלה" (some "abc")).response.session_id = "abc"
    ∧ (answer_question envHist "שאלה" (some "zzz")).response.session_id = "fresh-9"
    ∧ (answer_question envHist "שאלה" (some "zzz")).response.session_id ≠ "zzz" := by
  refine ⟨?_, ?_, ?_, ?_⟩
  · exact ((c2_session_resolution envHist "שאלה" "abc" (by decide)).1 sessionEight (by decide)).1
  · exact ((c2_session_resolution envHist "שאלה" "abc" (by decide)).1 sessionEight (by decide)).1
  · exact ((c2_session_resolution envHist "שאלה" "zzz" (by decide)).2.1 (by decide)).1
  · exact (c2_session_resolution envHist "שאלה" "zzz" (by decide)).2.2.2 (by decide) (by decide)

/-- C3: after every completed turn, answer_question appends the user message
then the assistant message to the loaded history, truncates to the most recent
10 messages and persists: the persisted message list is always a suffix (in
original order) of history ++ [user, assistant], has length
min (history length + 2) 10 ≤ 10, and is exactly 10 long once the loaded
history already holds at least 8 messages (5 or more exchanges counting the
current one). -/
theorem c3_history_truncation (env : Env) (question : String) (sid : Option String) :
    (answer_question env question sid).persistedMessages
      = lastN 10 ((resolveSession env.store sid).2 ++
          [⟨"user", question⟩, ⟨"assistant", (answer_question env question sid).response.answer⟩])
    ∧ (answer_question env question sid).persistedMessages.length
        = min ((resolveSession env.store sid).2.length + 2) 10
    ∧ (answer_question env question sid).persistedMessages.length ≤ 10
    ∧ (8 ≤ (resolveSession env.store sid).2.length →
        (answer_question env question sid).persistedMessages.length = 10)
    ∧ (answer_question env question sid).persistedMessages <:+
        ((resolveSession env.store sid).2 ++
          [⟨"user", question⟩, ⟨"assistant", (answer_question env question sid).response.answer⟩]) := by
  have hp := answer_question_persisted_eq env question sid
  have hlen : (answer_question env question sid).persistedMessages.length
      = min ((resolveSession env.store sid).2.length + 2) 10 := by
    rw [hp, lastN_length, List.length_append]
    simp [Nat.min_comm]
  refine ⟨hp, hlen, ?_, ?_, ?_⟩
  · rw [hlen]; omega
  · intro h8
    rw [hlen]
    omega
  · rw [hp]
    exact lastN_suffix _ _

/-- Witness for C3 at a concrete environment whose stored session already has
8 messages: the persisted history has exactly 10 messages. -/
theorem c3_witness :
    (answer_question envHist "שאלה" (some "abc")).persistedMessages.length = 10
    ∧ (answer_question envHist "שאלה" (some "abc")).persistedMessages.length ≤ 10 :=
  ⟨(c3_history_truncation envHist "שאלה" (some "abc")).2.2.2.1 (by decide),
   (c3_history_truncation envHist "שאלה" (some "abc")).2.2.1⟩

/-- C4: if the retrieval RPC raises, returns a null payload or returns no
rows, the turn does not fail: the search result list is empty, the assembled
context is the empty string, the response's sources list is empty, the system
prompt substitutes the explicit no-information marker for the empty context,
and the turn still completes with a non-empty answer. -/
theorem c4_empty_retrieval_degrades (env : Env) (question : String) (sid : Option String)
    (h : env.search (env.embed question) ragMatchThreshold ragMatchCount = .error ()
      ∨ env.search (env.embed question) ragMatchThreshold ragMatchCount = .ok none
      ∨ env.search (env.embed question) ragMatchThreshold ragMatchCount = .ok (some [])) :
    searchResults env question = []
    ∧ buildContext (searchResults env question) = ""
    ∧ (answer_question env question sid).response.sources = []
    ∧ systemMessageContent (buildContext (searchResults env question))
        = promptHead ++ noInfoMarker ++ promptTail
    ∧ (answer_question env question sid).response.answer ≠ "" := by
  have hempty : searchResults env question = [] := by
    unfold searchResults
    rcases h with h | h | h <;> rw [h] <;> rfl
  refine ⟨hempty, ?_, ?_, ?_, ?_⟩
  · rw [hempty]; rfl
  · rw [answer_question_sources_eq, hempty]; rfl
  · rw [hempty]
    rfl
  · rw [answer_question_answer_eq]
    exact generate_response_ne_empty _ _ _ _

/-- Witness for C4 at a concrete environment whose retrieval RPC raises. -/
theorem c4_witness :
    searchResults envExn "מה לאכול?" = []
    ∧ (answer_question envExn "מה לאכול?" none).response.sources = []
    ∧ (answer_question envExn "מה לאכול?" none).response.answer ≠ "" :=
  ⟨(c4_empty_retrieval_degrades envExn "מה לאכול?" none (Or.inl rfl)).1,
   (c4_empty_retrieval_degrades envExn "מה לאכול?" none (Or.inl rfl)).2.2.1,
   (c4_empty_retrieval_degrades envExn "מה לאכול?" none (Or.inl rfl)).2.2.2.2⟩

/-- C5: context assembly truncates each passage body to at most 2000
characters with an ellipsis marker exactly when the body was longer, prefixes
each body with a markdown header carrying the display title, and joins the
blocks with the separator; hence when every title is at most T characters the
context length is at most (2000 + 3 + (4 + T) + 7) per passage. -/
theorem c5_context_truncation (results : List Passage) (T : Nat)
    (hT : ∀ p ∈ results, p.title_hebrew.length ≤ T) :
    (buildContext results).length ≤ results.length * (2000 + 3 + (4 + T) + 7)
    ∧ (∀ p ∈ results, (truncateContent p.content_hebrew).length ≤ 2000 + 3)
    ∧ (∀ p ∈ results, p.content_hebrew.length > 2000 →
        truncateContent p.content_hebrew = pyTake p.content_hebrew 2000 ++ "...")
    ∧ (∀ p ∈ results, p.content_hebrew.length ≤ 2000 →
        truncateContent p.content_hebrew = p.content_hebrew)
    ∧ buildContext results = joinSep "\n\n---\n\n" (results.map contextPart) := by
  refine ⟨?_, ?_, ?_, ?_, rfl⟩
  · have hparts : ∀ part ∈ results.map contextPart,
        part.length ≤ 4 + T + (maxContentPerSource + 3) := by
      intro part hp
      rcases List.mem_map.mp hp with ⟨p, hpmem, rfl⟩
      exact contextPart_length_le p T (hT p hpmem)
    have h1 := joinSep_length_le "\n\n---\n\n" (results.map contextPart)
      (4 + T + (maxContentPerSource + 3)) hparts
    rw [List.length_map] at h1
    have hsep : ("\n\n---\n\n" : String).length = 7 := by decide
    rw [hsep] at h1
    have harith : 4 + T + (maxContentPerSource + 3) + 7 = 2000 + 3 + (4 + T) + 7 := by
      simp [maxContentPerSource]
      omega
    rw [harith] at h1
    exact h1
  · intro p _
    exact truncateContent_length_le p.content_hebrew
  · intro p _ hgt
    exact truncateContent_of_gt p.content_hebrew hgt
  · intro p _ hle
    exact truncateContent_of_le p.content_hebrew hle

/-- Witness for C5 at two concrete passages whose titles have 4 characters. -/
theorem c5_witness :
    (∀ p ∈ passages2, p.title_hebrew.length ≤ 4)
    ∧ (buildContext passages2).length ≤ passages2.length * (2000 + 3 + (4 + 4) + 7) :=
  ⟨by decide, (c5_context_truncation passages2 4 (by decide)).1⟩

/-- C6: for every non-empty sequence of retrieved passages, context assembly
produces exactly one SourceReference per input passage, in input order, with
each similarity rounded (half to even) to 3 decimal places, and the rounding —
being monotone — does not alter the ordering established by the store. -/
theorem c6_sources_order_preserved (env : Env) (question : String) (sid : Option String)
    (_hne : searchResults env question ≠ []) :
    (answer_question env question sid).response.sources
        = (searchResults env question).map mkSource
    ∧ (answer_question env question sid).response.sources.length
        = (searchResults env question).length
    ∧ (∀ p, (mkSource p).similarity = round3 p.similarity)
    ∧ (((searchResults env question).map Passage.similarity).Pairwise (· ≥ ·) →
        (((answer_question env question sid).response.sources).map
          SourceReference.similarity).Pairwise (· ≥ ·)) := by
  refine ⟨answer_question_sources_eq env question sid, ?_, fun p => rfl, ?_⟩
  · rw [answer_question_sources_eq]
    exact List.length_map _ _
  · intro hpw
    rw [answer_question_sources_eq, List.map_map]
    have hcomp : (SourceReference.similarity ∘ mkSource)
        = fun p : Passage => round3 p.similarity := rfl
    rw [hcomp]
    rw [List.pairwise_map] at hpw ⊢
    exact hpw.imp (fun hab => round3_mono hab)

/-- Witness for C6 at a concrete environment retrieving two passages with
descending similarities 0.81 and 0.63. -/
theorem c6_witness :
    (answer_question envHist "שאלה" none).response.sources = passages2.map mkSource
    ∧ (answer_question envHist "שאלה" none).response.sources.length = 2
    ∧ (((answer_question envHist "שאלה" none).response.sources).map
        SourceReference.similarity).Pairwise (· ≥ ·) :=
  ⟨(c6_sources_order_preserved envHist "שאלה" none (by decide)).1,
   ((c6_sources_order_preserved envHist "שאלה" none (by decide)).2.1).trans (by decide),
   (c6_sources_order_preserved envHist "שאלה" none (by decide)).2.2.2 (by decide)⟩

/-- C7 (counterexample): the code does not enforce dimension or normalization
in remote-API mode — with an endpoint replying [[2, 0]], encode_text returns
the 2-dimensional non-unit vector unchanged, so the claim as stated fails. -/
theorem c7_counterexample :
    encode_text badApiEnv "מה כדאי לאכול בטוקיו?" = .ok [2, 0]
    ∧ ¬ (([(2 : ℚ), 0]).length = 384 ∧ sumSq [(2 : ℚ), 0] = 1) :=
  ⟨rfl, fun h => absurd h.1 (by decide)⟩

/-- C7 (amended): encode_text passes the provider's vector through unchanged,
so it returns a 384-dimensional unit-normalized vector exactly when the active
provider (remote endpoint, or loaded local model asked for normalized output)
supplies such vectors. -/
theorem c7_amended_passthrough (env : EmbedEnv) (text : String)
    (hapi : ∀ ts v, v ∈ env.apiResult ts → v.length = 384 ∧ sumSq v = 1)
    (hmodel : ∀ enc, env.model = some enc → ∀ t, (enc t).length = 384 ∧ sumSq (enc t) = 1)
    (v : List ℚ) (hv : encode_text env text = .ok v) :
    v.length = 384 ∧ sumSq v = 1 := by
  unfold encode_text at hv
  by_cases hmode : env.use_api
  · rw [if_pos hmode] at hv
    cases hh : (env.apiResult [text]).head? with
    | none => rw [hh] at hv; cases hv
    | some w =>
      rw [hh] at hv
      have hwv : w = v := by injection hv
      subst hwv
      exact hapi [text] w (List.mem_of_mem_head? (by simp [hh]))
  · rw [if_neg hmode] at hv
    cases hm : env.model with
    | none => rw [hm] at hv; cases hv
    | some enc =>
      rw [hm] at hv
      have hwv : enc text = v := by injection hv
      subst hwv
      exact hmodel enc hm text

/-- Witness for C7's amended claim at an endpoint that returns a concrete
384-dimensional unit vector. -/
theorem c7_witness :
    encode_text goodApiEnv "שאלה" = .ok unitVec384
    ∧ unitVec384.length = 384 ∧ sumSq unitVec384 = 1 :=
  ⟨rfl,
   c7_amended_passthrough goodApiEnv "שאלה"
     (by
       intro ts v hv
       simp only [goodApiEnv, List.mem_singleton] at hv
       subst hv
       exact ⟨unitVec384_length, sumSq_unitVec384⟩)
     (by intro enc h; simp [goodApiEnv] at h)
     unitVec384 rfl⟩

/-- C8 (counterexample): when every attempt times out, the delays between the
3 attempts are [3, 3] — constant, not increasing — refuting the claimed
linearly growing backoff. -/
theorem c8_counterexample :
    (call_hf_api timeoutOracle 3).sleeps = [3, 3]
    ∧ ¬ List.Chain' (· < ·) (call_hf_api timeoutOracle 3).sleeps := by
  refine ⟨rfl, ?_⟩
  intro h
  rw [show (call_hf_api timeoutOracle 3).sleeps = [3, 3] from rfl] at h
  exact absurd (List.chain'_cons.mp h).1 (by decide)

/-- C8 (amended): _call_hf_api with retries = 3 makes at most 3 attempts,
separated by fixed delays (3 seconds after a timeout or other exception,
5 seconds after an explicit error payload), and when no attempt succeeds it
raises an error rather than returning a result. -/
theorem c8_amended_fixed_backoff (oracle : Nat → AttemptOutcome) :
    (call_hf_api oracle 3).attemptsUsed ≤ 3
    ∧ (∀ d ∈ (call_hf_api oracle 3).sleeps, d = 3 ∨ d = 5)
    ∧ ((∀ k r, oracle k ≠ .success r) →
        ∃ msg, (call_hf_api oracle 3).result = .error msg) :=
  ⟨hfLoop_attemptsUsed_le oracle 0 3, hfLoop_sleeps_mem oracle 0 3,
   fun h => hfLoop_error_of_no_success oracle 0 3 h⟩

/-- Witness for C8's amended claim at the all-timeouts endpoint: 3 attempts
are made and the final timeout is re-raised. -/
theorem c8_witness :
    (call_hf_api timeoutOracle 3).attemptsUsed ≤ 3
    ∧ (call_hf_api timeoutOracle 3).attemptsUsed = 3
    ∧ (call_hf_api timeoutOracle 3).result = .error "httpx.TimeoutException"
    ∧ (call_hf_api timeoutOracle 3).sleeps = [3, 3] :=
  ⟨(c8_amended_fixed_backoff timeoutOracle).1, rfl, rfl, rfl⟩

/-- C9: generate_suggested_questions always returns at most 3 strings, and on
any provider exception it returns the fixed default list of exactly 3 generic
follow-up questions instead of failing. -/
theorem c9_suggestions_bounded (provider : String → String → CompletionResult)
    (question answer : String) :
    (generate_suggested_questions provider question answer).length ≤ 3
    ∧ (provider question answer = .exn →
        generate_suggested_questions provider question answer = defaultSuggestions)
    ∧ defaultSuggestions.length = 3 := by
  refine ⟨?_, ?_, rfl⟩
  · unfold generate_suggested_questions
    cases provider question answer with
    | exn => decide
    | ok content =>
      simp only [List.length_take]
      omega
  · intro h
    unfold generate_suggested_questions
    rw [h]

/-- Witness for C9 at a provider that raises. -/
theorem c9_witness :
    (generate_suggested_questions (fun _ _ => .exn) "שאלה" "תשובה").length ≤ 3
    ∧ generate_suggested_questions (fun _ _ => .exn) "שאלה" "תשובה" = defaultSuggestions :=
  ⟨(c9_suggestions_bounded (fun _ _ => .exn) "שאלה" "תשובה").1,
   (c9_suggestions_bounded (fun _ _ => .exn) "שאלה" "תשובה").2.1 rfl⟩

/-- C10: the answer of every completed turn is a non-empty string — empty or
missing provider content is replaced by the fixed no-answer fallback, provider
failure by the localized error fallback, and both fallbacks are non-empty. -/
theorem c10_answer_always_nonempty (env : Env) (question : String) (sid : Option String) :
    (answer_question env question sid).response.answer ≠ ""
    ∧ ((∀ msgs, env.completionProvider msgs = .ok (some "")) →
        (answer_question env question sid).response.answer = noAnswerFallback)
    ∧ ((∀ msgs, env.completionProvider msgs = .ok none) →
        (answer_question env question sid).response.answer = noAnswerFallback)
    ∧ ((∀ msgs, env.completionProvider msgs = .exn) →
        (answer_question env question sid).response.answer = errorFallback)
    ∧ noAnswerFallback ≠ "" ∧ errorFallback ≠ "" := by
  refine ⟨?_, ?_, ?_, ?_, by decide, by decide⟩
  · rw [answer_question_answer_eq]
    exact generate_response_ne_empty _ _ _ _
  · intro h
    rw [answer_question_answer_eq]
    simp [generate_response, h _]
  · intro h
    rw [answer_question_answer_eq]
    simp [generate_response, h _]
  · intro h
    rw [answer_question_answer_eq]
    simp [generate_response, h _]

/-- Witness for C10 at a concrete environment whose provider succeeds with
empty content. -/
theorem c10_witness :
    (answer_question envEmptyContent "שאלה" none).response.answer = noAnswerFallback
    ∧ (answer_question envEmptyContent "שאלה" none).response.answer ≠ "" :=
  ⟨(c10_answer_always_nonempty envEmptyContent "שאלה" none).2.1 (fun _ => rfl),
   (c10_answer_always_nonempty envEmptyContent "שאלה" none).1⟩

end TokyoGuide
